import Mathlib

/-!
Verification development for the swarmbots simulator (src/asyncswarm.py).

The Python program simulates a swarm of point agents ("robots") that move
toward the swarm centroid.  The simulation core is embedded shallowly:

*  `RobotState` mirrors the fields set in `Robot.__init__`;
*  `Robot.update` mirrors `Robot.update` (lines 157-182 of the source);
*  `ArenaState` mirrors the swarm-relevant fields of `Arena`;
*  `Arena.refreshCentroid`, `Arena.findCentroid`, `Arena.updateRobot`,
   the synchronous tick of `Arena.runSync` and the renderer tick of
   `Arena.runGuiAsync` are modelled as explicit state-passing functions.

Real-valued coordinates are modelled by `Real`; the Python `math.hypot` is
`hypot` below; code that can raise (division by zero on an empty swarm)
returns `Option`/`Except`.
-/

namespace Swarm

/-- Python math.hypot: Euclidean norm of a 2-vector. -/
noncomputable def hypot (a b : ℝ) : ℝ := Real.sqrt (a ^ 2 + b ^ 2)

/-- State of one robot: the fields assigned in `Robot.__init__`
(`self.xy`, `self.color`, `self.nap`, `self.prevTime`,
`self.pixPerSecond`).  The back-reference `self.arena` is represented by
passing the arena data explicitly where the robot reads it. -/
structure RobotState where
  x : ℝ
  y : ℝ
  color : ℕ × ℕ × ℕ
  nap : ℝ
  prevTime : ℝ
  pixPerSecond : ℝ

/-- `Robot.update` from the source, with the ambient reads made explicit:
`centroid` is the value `self.arena.findCentroid()` returns during the
call and `now` is the value `time.perf_counter()` returns.  The body is a
line-for-line translation:
dt := now - prevTime; distx,disty := centroid - xy;
dist := max(1, hypot(distx, disty)); dir := dist-normalised delta;
travel := pixPerSecond * dt; xy += travel * dir; prevTime := now. -/
noncomputable def Robot.update (centroid : ℝ × ℝ) (now : ℝ) (r : RobotState) :
    RobotState :=
  let dt := now - r.prevTime
  let x := r.x
  let y := r.y
  let cx := centroid.1
  let cy := centroid.2
  let distx := cx - x
  let disty := cy - y
  let dist := max 1 (hypot distx disty)
  let dirx := distx / dist
  let diry := disty / dist
  let travel := r.pixPerSecond * dt
  let dx := travel * dirx
  let dy := travel * diry
  { r with x := x + dx, y := y + dy, prevTime := now }

/-- A point `q` lies strictly between `p` and `r` on the straight line
connecting them: it is an interior point of the segment from `p` to `r`. -/
def strictlyBetween (p q r : ℝ × ℝ) : Prop :=
  ∃ t : ℝ, 0 < t ∧ t < 1 ∧
    q.1 = p.1 + t * (r.1 - p.1) ∧ q.2 = p.2 + t * (r.2 - p.2)

/-- A concrete robot used as demonstration input in witnesses: position
`(x, y)`, white, nap 0.1 s, `prevTime` 0, and the fixed source speed of
50 pixels per second. -/
noncomputable def botAt (x y : ℝ) : RobotState :=
  { x := x, y := y, color := (255, 255, 255), nap := 1 / 10,
    prevTime := 0, pixPerSecond := 50 }

/-! ### Basic facts about `hypot` -/

theorem hypot_nonneg (a b : ℝ) : 0 ≤ hypot a b := Real.sqrt_nonneg _

theorem hypot_pos_of_ne (a b : ℝ) (h : ¬(a = 0 ∧ b = 0)) : 0 < hypot a b := by
  apply Real.sqrt_pos.mpr
  by_cases ha : a = 0
  · have hb : b ≠ 0 := fun hb => h ⟨ha, hb⟩
    have : 0 < b ^ 2 := (sq_nonneg b).lt_of_ne (Ne.symm (pow_ne_zero 2 hb))
    nlinarith [sq_nonneg a]
  · have : 0 < a ^ 2 := (sq_nonneg a).lt_of_ne (Ne.symm (pow_ne_zero 2 ha))
    nlinarith [sq_nonneg b]

theorem hypot_smul (c a b : ℝ) (hc : 0 ≤ c) :
    hypot (c * a) (c * b) = c * hypot a b := by
  unfold hypot
  have h1 : (c * a) ^ 2 + (c * b) ^ 2 = c ^ 2 * (a ^ 2 + b ^ 2) := by ring
  rw [h1, Real.sqrt_mul (sq_nonneg c), Real.sqrt_sq hc]

theorem hypot_div (a b c : ℝ) (hc : 0 < c) :
    hypot (a / c) (b / c) = hypot a b / c := by
  have h1 : a / c = (1 / c) * a := by ring
  have h2 : b / c = (1 / c) * b := by ring
  rw [h1, h2, hypot_smul _ _ _ (by positivity)]
  ring

theorem hypot_eval (a b c : ℝ) (hc : 0 ≤ c) (h : a ^ 2 + b ^ 2 = c ^ 2) :
    hypot a b = c := by
  unfold hypot
  rw [h, Real.sqrt_sq hc]

/-! ### Position change of one `Robot.update` call -/

theorem update_delta_x (c : ℝ × ℝ) (now : ℝ) (r : RobotState) :
    (Robot.update c now r).x =
      r.x + (r.pixPerSecond * (now - r.prevTime)) *
        ((c.1 - r.x) / max 1 (hypot (c.1 - r.x) (c.2 - r.y))) := rfl

theorem update_delta_y (c : ℝ × ℝ) (now : ℝ) (r : RobotState) :
    (Robot.update c now r).y =
      r.y + (r.pixPerSecond * (now - r.prevTime)) *
        ((c.2 - r.y) / max 1 (hypot (c.1 - r.x) (c.2 - r.y))) := rfl

theorem update_prevTime (c : ℝ × ℝ) (now : ℝ) (r : RobotState) :
    (Robot.update c now r).prevTime = now := rfl

theorem update_color (c : ℝ × ℝ) (now : ℝ) (r : RobotState) :
    (Robot.update c now r).color = r.color := rfl

theorem update_nap (c : ℝ × ℝ) (now : ℝ) (r : RobotState) :
    (Robot.update c now r).nap = r.nap := rfl

theorem update_pixPerSecond (c : ℝ × ℝ) (now : ℝ) (r : RobotState) :
    (Robot.update c now r).pixPerSecond = r.pixPerSecond := rfl

/-- Claim C5: one `update` call at `now` equal to the robot last-update
timestamp (so `dt = 0`) leaves the position of the robot unchanged. -/
theorem claim_C5_dt_zero_no_motion (r : RobotState) (c : ℝ × ℝ) (now : ℝ)
    (h : now = r.prevTime) :
    (Robot.update c now r).x = r.x ∧ (Robot.update c now r).y = r.y := by
  constructor
  · rw [update_delta_x, h]; ring
  · rw [update_delta_y, h]; ring

/-- Witness for C5 at a concrete robot: `botAt 3 4` has `prevTime = 0`,
and updating it at time 0 toward centroid `(10, 2)` keeps it at `(3, 4)`. -/
theorem claim_C5_witness :
    (0 : ℝ) = (botAt 3 4).prevTime ∧
      ((Robot.update (10, 2) 0 (botAt 3 4)).x = (botAt 3 4).x ∧
       (Robot.update (10, 2) 0 (botAt 3 4)).y = (botAt 3 4).y) :=
  ⟨rfl, claim_C5_dt_zero_no_motion (botAt 3 4) (10, 2) 0 rfl⟩

/-- Claim C4, amended: an agent not at the centroid with strictly positive
travel distance `speed * dt` strictly smaller than its current distance to
the centroid moves, in one `update`, to a point strictly between its old
position and the centroid on the line connecting them. -/
theorem claim_C4_no_overshoot (r : RobotState) (cx cy now : ℝ)
    (_hne : ¬((r.x, r.y) = ((cx, cy) : ℝ × ℝ)))
    (hpos : 0 < r.pixPerSecond * (now - r.prevTime))
    (hlt : r.pixPerSecond * (now - r.prevTime) < hypot (cx - r.x) (cy - r.y)) :
    strictlyBetween (r.x, r.y)
      ((Robot.update (cx, cy) now r).x, (Robot.update (cx, cy) now r).y)
      (cx, cy) := by
  have hm1 : (1 : ℝ) ≤ max 1 (hypot (cx - r.x) (cy - r.y)) := le_max_left _ _
  have hm0 : (0 : ℝ) < max 1 (hypot (cx - r.x) (cy - r.y)) :=
    lt_of_lt_of_le one_pos hm1
  refine ⟨(r.pixPerSecond * (now - r.prevTime)) /
      max 1 (hypot (cx - r.x) (cy - r.y)), ?_, ?_, ?_, ?_⟩
  · exact div_pos hpos hm0
  · exact (div_lt_one hm0).mpr (lt_of_lt_of_le hlt (le_max_right _ _))
  · rw [update_delta_x]; ring
  · rw [update_delta_y]; ring

/-- Witness for the amended C4: the robot `botAt 0 0` (speed 50,
`prevTime` 0) updated at time 1/50 toward centroid `(2, 0)` has travel
distance 1, strictly between 0 and its distance 2 to the centroid, and
ends strictly between `(0, 0)` and `(2, 0)`. -/
theorem claim_C4_witness :
    ¬(((botAt 0 0).x, (botAt 0 0).y) = ((2 : ℝ), (0 : ℝ))) ∧
    0 < (botAt 0 0).pixPerSecond * (1 / 50 - (botAt 0 0).prevTime) ∧
    (botAt 0 0).pixPerSecond * (1 / 50 - (botAt 0 0).prevTime) <
      hypot (2 - (botAt 0 0).x) (0 - (botAt 0 0).y) ∧
    strictlyBetween ((botAt 0 0).x, (botAt 0 0).y)
      ((Robot.update (2, 0) (1 / 50) (botAt 0 0)).x,
       (Robot.update (2, 0) (1 / 50) (botAt 0 0)).y) (2, 0) := by
  have h2 : hypot (2 - (botAt 0 0).x) (0 - (botAt 0 0).y) = 2 := by
    apply hypot_eval _ _ _ (by norm_num)
    show (2 - (botAt 0 0).x) ^ 2 + (0 - (botAt 0 0).y) ^ 2 = 2 ^ 2
    simp only [botAt]
    norm_num
  refine ⟨?_, ?_, ?_, ?_⟩
  · simp only [botAt, Prod.mk.injEq]
    norm_num
  · simp only [botAt]
    norm_num
  · rw [h2]
    simp only [botAt]
    norm_num
  · exact claim_C4_no_overshoot (botAt 0 0) 2 0 (1 / 50)
      (by simp only [botAt, Prod.mk.injEq]; norm_num)
      (by simp only [botAt]; norm_num)
      (by rw [h2]; simp only [botAt]; norm_num)

/-- Counterexample to claim C4 as stated: at `dt = 0` the travel distance
`speed * dt = 0` is strictly less than the distance 2 to the centroid and
the robot is not at the centroid, yet the position after `update` equals
the old position, which is not strictly between the old position and the
centroid. -/
theorem claim_C4_counterexample :
    ¬(((botAt 0 0).x, (botAt 0 0).y) = ((2 : ℝ), (0 : ℝ))) ∧
    (botAt 0 0).pixPerSecond * (0 - (botAt 0 0).prevTime) <
      hypot (2 - (botAt 0 0).x) (0 - (botAt 0 0).y) ∧
    ¬ strictlyBetween ((botAt 0 0).x, (botAt 0 0).y)
        ((Robot.update (2, 0) 0 (botAt 0 0)).x,
         (Robot.update (2, 0) 0 (botAt 0 0)).y) (2, 0) := by
  have h2 : hypot (2 - (botAt 0 0).x) (0 - (botAt 0 0).y) = 2 := by
    apply hypot_eval _ _ _ (by norm_num)
    show (2 - (botAt 0 0).x) ^ 2 + (0 - (botAt 0 0).y) ^ 2 = 2 ^ 2
    simp only [botAt]
    norm_num
  have hx : (Robot.update (2, 0) 0 (botAt 0 0)).x = (botAt 0 0).x := by
    rw [update_delta_x]
    simp only [botAt]
    norm_num
  refine ⟨?_, ?_, ?_⟩
  · simp only [botAt, Prod.mk.injEq]
    norm_num
  · rw [h2]
    simp only [botAt]
    norm_num
  · rintro ⟨t, ht0, _, hqx, _⟩
    rw [hx] at hqx
    simp only [botAt] at hqx
    norm_num at hqx
    exact absurd hqx (ne_of_gt ht0)

/-- Claim C10: with nonnegative speed and `dt = now - prevTime ≥ 0`, the
Euclidean magnitude of the position change of one `update` is at most
`speed * dt`; the direction vector `delta / max(1, |delta|)` always has
norm at most 1, with norm exactly 1 when the distance to the centroid is
at least 1 and norm equal to that distance when it is below 1. -/
theorem claim_C10_travel_bound (r : RobotState) (cx cy now : ℝ)
    (hs : 0 ≤ r.pixPerSecond) (ht : r.prevTime ≤ now) :
    hypot ((Robot.update (cx, cy) now r).x - r.x)
          ((Robot.update (cx, cy) now r).y - r.y)
        ≤ r.pixPerSecond * (now - r.prevTime) ∧
    hypot ((cx - r.x) / max 1 (hypot (cx - r.x) (cy - r.y)))
          ((cy - r.y) / max 1 (hypot (cx - r.x) (cy - r.y))) ≤ 1 ∧
    (1 ≤ hypot (cx - r.x) (cy - r.y) →
      hypot ((cx - r.x) / max 1 (hypot (cx - r.x) (cy - r.y)))
            ((cy - r.y) / max 1 (hypot (cx - r.x) (cy - r.y))) = 1) ∧
    (hypot (cx - r.x) (cy - r.y) < 1 →
      hypot ((cx - r.x) / max 1 (hypot (cx - r.x) (cy - r.y)))
            ((cy - r.y) / max 1 (hypot (cx - r.x) (cy - r.y))) =
        hypot (cx - r.x) (cy - r.y)) := by
  have hm1 : (1 : ℝ) ≤ max 1 (hypot (cx - r.x) (cy - r.y)) := le_max_left _ _
  have hm0 : (0 : ℝ) < max 1 (hypot (cx - r.x) (cy - r.y)) :=
    lt_of_lt_of_le one_pos hm1
  have hdir : hypot ((cx - r.x) / max 1 (hypot (cx - r.x) (cy - r.y)))
      ((cy - r.y) / max 1 (hypot (cx - r.x) (cy - r.y))) =
      hypot (cx - r.x) (cy - r.y) / max 1 (hypot (cx - r.x) (cy - r.y)) :=
    hypot_div _ _ _ hm0
  have hdirle : hypot (cx - r.x) (cy - r.y) /
      max 1 (hypot (cx - r.x) (cy - r.y)) ≤ 1 :=
    (div_le_one hm0).mpr (le_max_right _ _)
  have htr : 0 ≤ r.pixPerSecond * (now - r.prevTime) :=
    mul_nonneg hs (by linarith)
  refine ⟨?_, ?_, ?_, ?_⟩
  · have hΔx : (Robot.update (cx, cy) now r).x - r.x =
        (r.pixPerSecond * (now - r.prevTime)) *
          ((cx - r.x) / max 1 (hypot (cx - r.x) (cy - r.y))) := by
      rw [update_delta_x]; ring
    have hΔy : (Robot.update (cx, cy) now r).y - r.y =
        (r.pixPerSecond * (now - r.prevTime)) *
          ((cy - r.y) / max 1 (hypot (cx - r.x) (cy - r.y))) := by
      rw [update_delta_y]; ring
    rw [hΔx, hΔy, hypot_smul _ _ _ htr, hdir]
    calc r.pixPerSecond * (now - r.prevTime) *
          (hypot (cx - r.x) (cy - r.y) / max 1 (hypot (cx - r.x) (cy - r.y)))
        ≤ r.pixPerSecond * (now - r.prevTime) * 1 :=
          mul_le_mul_of_nonneg_left hdirle htr
      _ = r.pixPerSecond * (now - r.prevTime) := mul_one _
  · rw [hdir]; exact hdirle
  · intro h1
    rw [hdir, max_eq_right h1,
      div_self (ne_of_gt (lt_of_lt_of_le one_pos h1))]
  · intro h1
    rw [hdir, max_eq_left (le_of_lt h1), div_one]

/-- Witness for C10 at the robot `botAt 0 0` (speed 50, `prevTime` 0),
centroid `(2, 0)`, current time 1. -/
theorem claim_C10_witness :
    0 ≤ (botAt 0 0).pixPerSecond ∧ (botAt 0 0).prevTime ≤ 1 ∧
    (hypot ((Robot.update (2, 0) 1 (botAt 0 0)).x - (botAt 0 0).x)
           ((Robot.update (2, 0) 1 (botAt 0 0)).y - (botAt 0 0).y)
         ≤ (botAt 0 0).pixPerSecond * (1 - (botAt 0 0).prevTime) ∧
     hypot ((2 - (botAt 0 0).x) /
              max 1 (hypot (2 - (botAt 0 0).x) (0 - (botAt 0 0).y)))
           ((0 - (botAt 0 0).y) /
              max 1 (hypot (2 - (botAt 0 0).x) (0 - (botAt 0 0).y))) ≤ 1 ∧
     (1 ≤ hypot (2 - (botAt 0 0).x) (0 - (botAt 0 0).y) →
       hypot ((2 - (botAt 0 0).x) /
                max 1 (hypot (2 - (botAt 0 0).x) (0 - (botAt 0 0).y)))
             ((0 - (botAt 0 0).y) /
                max 1 (hypot (2 - (botAt 0 0).x) (0 - (botAt 0 0).y))) = 1) ∧
     (hypot (2 - (botAt 0 0).x) (0 - (botAt 0 0).y) < 1 →
       hypot ((2 - (botAt 0 0).x) /
                max 1 (hypot (2 - (botAt 0 0).x) (0 - (botAt 0 0).y)))
             ((0 - (botAt 0 0).y) /
                max 1 (hypot (2 - (botAt 0 0).x) (0 - (botAt 0 0).y))) =
         hypot (2 - (botAt 0 0).x) (0 - (botAt 0 0).y))) :=
  ⟨by simp only [botAt]; norm_num,
   by simp only [botAt]; norm_num,
   claim_C10_travel_bound (botAt 0 0) 2 0 1
     (by simp only [botAt]; norm_num)
     (by simp only [botAt]; norm_num)⟩

/-! ### The arena -/

/-- Swarm-relevant state of `Arena`: the fields set in `initForPygame`
(`keepRunning`, `width`, `height`, `drawInterval`; the pygame surface is
display glue and is not modelled) and in `initForSwarm` (`robots`,
`centroid`). -/
structure ArenaState where
  keepRunning : Bool
  width : ℕ
  height : ℕ
  drawInterval : ℝ
  robots : List RobotState
  centroid : ℝ × ℝ

/-- Python exception classes relevant to swarm construction.
`zeroDivisionError` models the built-in Python ZeroDivisionError;
`invalidConfiguration` is the error class named by the specification for
rejecting an empty swarm (no such class exists in the source). -/
inductive SwarmError where
  | zeroDivisionError
  | invalidConfiguration
deriving DecidableEq

/-- `Arena.findCentroid`: returns the most recently computed centroid. -/
def Arena.findCentroid (st : ArenaState) : ℝ × ℝ := st.centroid

/-- `Arena.refreshCentroid`: sums all robot positions with a fold (the
`sumx += x; sumy += y` loop of the source), divides by the robot count and
stores the result as the new centroid.  Python raises ZeroDivisionError
when the swarm is empty; that failure is `none`.  Returns the updated
arena together with the returned centroid value. -/
noncomputable def Arena.refreshCentroid (st : ArenaState) :
    Option (ArenaState × (ℝ × ℝ)) :=
  let sumx := st.robots.foldl (fun s b => s + b.x) 0
  let sumy := st.robots.foldl (fun s b => s + b.y) 0
  let nbots := st.robots.length
  if nbots = 0 then none
  else
    let c : ℝ × ℝ := (sumx / (nbots : ℝ), sumy / (nbots : ℝ))
    some ({ st with centroid := c }, c)

/-- `Arena.initForPygame`: the arena state before the swarm is created
(window 1000 by 750, draw interval 1/15 s, `keepRunning` true). -/
noncomputable def Arena.initForPygame : ArenaState :=
  { keepRunning := true, width := 1000, height := 750,
    drawInterval := 1 / 15, robots := [], centroid := (0, 0) }

/-- `Arena.initForSwarm`: installs the generated robots (random
generation is display glue, so the robot list is a parameter) and
computes the initial centroid.  A ZeroDivisionError raised by
`refreshCentroid` propagates out of construction. -/
noncomputable def Arena.initForSwarm (st : ArenaState)
    (bots : List RobotState) : Except SwarmError ArenaState :=
  match Arena.refreshCentroid { st with robots := bots } with
  | none => .error .zeroDivisionError
  | some (st1, _) => .ok st1

/-- `Arena.__init__`: `initForPygame` then `initForSwarm`. -/
noncomputable def Arena.construct (bots : List RobotState) :
    Except SwarmError ArenaState :=
  Arena.initForSwarm Arena.initForPygame bots

/-- The arithmetic mean of the robot positions, written the way the
specification describes the centroid. -/
noncomputable def meanPos (bots : List RobotState) : ℝ × ℝ :=
  ((bots.map RobotState.x).sum / (bots.length : ℝ),
   (bots.map RobotState.y).sum / (bots.length : ℝ))

/-- The `self.update()` call of one robot seen at the arena level: robot `i`
reads `arena.findCentroid()` and the clock, then replaces its own entry.
Out-of-range `i` never occurs in the source loops and leaves the arena
unchanged. -/
noncomputable def Arena.updateRobot (st : ArenaState) (i : ℕ) (now : ℝ) :
    ArenaState :=
  match st.robots.get? i with
  | none => st
  | some r =>
      { st with robots :=
          st.robots.set i (Robot.update (Arena.findCentroid st) now r) }

theorem foldl_add_proj (f : RobotState → ℝ) :
    ∀ (l : List RobotState) (a : ℝ),
      l.foldl (fun s b => s + f b) a = a + (l.map f).sum := by
  intro l
  induction l with
  | nil => intro a; simp
  | cons b l ih =>
      intro a
      simp only [List.foldl_cons, List.map_cons, List.sum_cons, ih]
      ring

theorem refreshCentroid_eq (st : ArenaState) (h : st.robots ≠ []) :
    Arena.refreshCentroid st =
      some ({ st with centroid := meanPos st.robots }, meanPos st.robots) := by
  unfold Arena.refreshCentroid
  have hn : st.robots.length ≠ 0 := fun h0 => h (List.length_eq_zero.mp h0)
  simp only [hn, if_false, foldl_add_proj, zero_add]
  rfl

/-- Claim C6: on a nonempty swarm, `refreshCentroid` returns the exact
arithmetic mean of all robot positions and overwrites the stored centroid
with that mean. -/
theorem claim_C6_centroid_mean (st : ArenaState) (h : st.robots ≠ []) :
    Arena.refreshCentroid st =
      some ({ st with centroid := meanPos st.robots }, meanPos st.robots) :=
  refreshCentroid_eq st h

/-- The four-robot demonstration swarm of the specification, at positions
`(0,0)`, `(2,0)`, `(0,2)` and `(2,2)`. -/
noncomputable def demoSwarm : ArenaState :=
  { Arena.initForPygame with
      robots := [botAt 0 0, botAt 2 0, botAt 0 2, botAt 2 2] }

/-- Witness for C6: refreshing the four-robot demonstration swarm yields
centroid `(1, 1)` and stores it. -/
theorem claim_C6_witness :
    Arena.refreshCentroid demoSwarm =
      some ({ demoSwarm with centroid := ((1 : ℝ), (1 : ℝ)) },
            ((1 : ℝ), (1 : ℝ))) := by
  have h := claim_C6_centroid_mean demoSwarm (by simp [demoSwarm])
  have hm : meanPos demoSwarm.robots = ((1 : ℝ), (1 : ℝ)) := by
    simp only [meanPos, demoSwarm, botAt]
    norm_num
  rw [h, hm]

/-- Claim C2, amended: constructing a swarm with agent count below 1
fails at construction time — the initial centroid computation divides by
the agent count 0 and raises ZeroDivisionError — so no arena (and in
particular no NaN centroid) is produced; the error is ZeroDivisionError,
not an `InvalidConfiguration` error. -/
theorem claim_C2_construction_fails (bots : List RobotState)
    (h : bots.length < 1) :
    Arena.construct bots = .error .zeroDivisionError := by
  have hnil : bots = [] := List.length_eq_zero.mp (Nat.lt_one_iff.mp h)
  subst hnil
  rfl

/-- Witness for the amended C2 at the concrete empty robot list. -/
theorem claim_C2_witness :
    ([] : List RobotState).length < 1 ∧
      Arena.construct [] = .error .zeroDivisionError :=
  ⟨by decide, claim_C2_construction_fails [] (by decide)⟩

/-- Counterexample to claim C2 as stated: constructing with 0 agents
fails with ZeroDivisionError, which is not the `InvalidConfiguration`
error the claim names. -/
theorem claim_C2_counterexample :
    Arena.construct [] = .error .zeroDivisionError ∧
      (Except.error SwarmError.zeroDivisionError :
          Except SwarmError ArenaState) ≠
        .error .invalidConfiguration := by
  constructor
  · rfl
  · intro h
    have := Except.error.inj h
    exact absurd this (by decide)

theorem updateRobot_centroid (st : ArenaState) (i : ℕ) (now : ℝ) :
    (Arena.updateRobot st i now).centroid = st.centroid := by
  unfold Arena.updateRobot
  cases st.robots.get? i <;> rfl

theorem updateRobot_keepRunning (st : ArenaState) (i : ℕ) (now : ℝ) :
    (Arena.updateRobot st i now).keepRunning = st.keepRunning := by
  unfold Arena.updateRobot
  cases st.robots.get? i <;> rfl

theorem updateRobot_length (st : ArenaState) (i : ℕ) (now : ℝ) :
    (Arena.updateRobot st i now).robots.length = st.robots.length := by
  unfold Arena.updateRobot
  cases st.robots.get? i <;> simp

/-- Claim C9: the `update` call of a robot mutates only the own
position and last-update timestamp of that robot: the stored centroid,
the running flag, the window geometry, the draw interval, every other
robot, and the own color, nap and speed of the updated robot are
unchanged. -/
theorem claim_C9_update_frame (st : ArenaState) (i : ℕ) (now : ℝ) :
    (Arena.updateRobot st i now).centroid = st.centroid ∧
    (Arena.updateRobot st i now).keepRunning = st.keepRunning ∧
    (Arena.updateRobot st i now).width = st.width ∧
    (Arena.updateRobot st i now).height = st.height ∧
    (Arena.updateRobot st i now).drawInterval = st.drawInterval ∧
    (Arena.updateRobot st i now).robots.length = st.robots.length ∧
    (∀ j, j ≠ i →
      (Arena.updateRobot st i now).robots.get? j = st.robots.get? j) ∧
    (∀ r, st.robots.get? i = some r →
      (Arena.updateRobot st i now).robots.get? i =
          some (Robot.update (Arena.findCentroid st) now r) ∧
        (Robot.update (Arena.findCentroid st) now r).color = r.color ∧
        (Robot.update (Arena.findCentroid st) now r).nap = r.nap ∧
        (Robot.update (Arena.findCentroid st) now r).pixPerSecond =
          r.pixPerSecond) := by
  refine ⟨updateRobot_centroid st i now, updateRobot_keepRunning st i now,
    ?_, ?_, ?_, updateRobot_length st i now, ?_, ?_⟩
  · unfold Arena.updateRobot; cases st.robots.get? i <;> rfl
  · unfold Arena.updateRobot; cases st.robots.get? i <;> rfl
  · unfold Arena.updateRobot; cases st.robots.get? i <;> rfl
  · intro j hj
    unfold Arena.updateRobot
    cases hres : st.robots.get? i with
    | none => rfl
    | some r =>
        simp only [List.get?_eq_getElem?]
        exact List.getElem?_set_ne (Ne.symm hj)
  · intro r hr
    unfold Arena.updateRobot
    rw [hr]
    have hi : i < st.robots.length := (List.get?_eq_some.mp hr).1
    refine ⟨?_, update_color _ _ _, update_nap _ _ _, update_pixPerSecond _ _ _⟩
    simp only [List.get?_eq_getElem?, List.getElem?_set_self']
    simp [hi]

/-- Witness for C9 on a concrete two-robot arena, updating robot 0 at
time 1 and inspecting robot 1. -/
theorem claim_C9_witness :
    (Arena.updateRobot demoSwarm 0 1).centroid = demoSwarm.centroid ∧
    (Arena.updateRobot demoSwarm 0 1).keepRunning = demoSwarm.keepRunning ∧
    (Arena.updateRobot demoSwarm 0 1).width = demoSwarm.width ∧
    (Arena.updateRobot demoSwarm 0 1).height = demoSwarm.height ∧
    (Arena.updateRobot demoSwarm 0 1).drawInterval = demoSwarm.drawInterval ∧
    (Arena.updateRobot demoSwarm 0 1).robots.length =
      demoSwarm.robots.length ∧
    (∀ j, j ≠ 0 →
      (Arena.updateRobot demoSwarm 0 1).robots.get? j =
        demoSwarm.robots.get? j) ∧
    (∀ r, demoSwarm.robots.get? 0 = some r →
      (Arena.updateRobot demoSwarm 0 1).robots.get? 0 =
          some (Robot.update (Arena.findCentroid demoSwarm) 1 r) ∧
        (Robot.update (Arena.findCentroid demoSwarm) 1 r).color = r.color ∧
        (Robot.update (Arena.findCentroid demoSwarm) 1 r).nap = r.nap ∧
        (Robot.update (Arena.findCentroid demoSwarm) 1 r).pixPerSecond =
          r.pixPerSecond) :=
  claim_C9_update_frame demoSwarm 0 1

/-! ### Scheduler: the synchronous loop and the async renderer loop -/

/-- Observable events of one scheduling tick, in the order they occur:
the input poll, a draw call carrying the snapshot handed to the renderer,
the `update` call of one robot carrying the centroid value it read, and a
centroid recomputation. -/
inductive Ev where
  | poll
  | draw (snap : List ((ℝ × ℝ) × (ℕ × ℕ × ℕ)))
  | upd (i : ℕ) (centroidUsed : ℝ × ℝ)
  | recompute

/-- The read-only snapshot `drawBots` renders: the position and
color, in robot order. -/
def Arena.snapshot (st : ArenaState) : List ((ℝ × ℝ) × (ℕ × ℕ × ℕ)) :=
  st.robots.map fun r => ((r.x, r.y), r.color)

/-- `Arena.handlePygameEvents` at the core boundary: drains pending
input; a pending quit request clears `keepRunning`, otherwise the arena
is untouched.  The input source is abstracted to the boolean stop
signal. -/
def Arena.handleEvents (stopSignal : Bool) (st : ArenaState) : ArenaState :=
  if stopSignal then { st with keepRunning := false } else st

/-- The `for robot in self.robots: robot.update()` loop of `runSync`,
updating robots `i, i+1, ...` (`k` of them) strictly sequentially.  Each
step reads `findCentroid` of the arena as it stands at that step and
emits the corresponding `upd` event.  `times i` is what
`time.perf_counter()` returns during the update of robot `i`. -/
noncomputable def Arena.updateRobotsAux (times : ℕ → ℝ) :
    ArenaState → ℕ → ℕ → ArenaState × List Ev
  | st, _, 0 => (st, [])
  | st, i, k + 1 =>
      let c := Arena.findCentroid st
      let st2 := Arena.updateRobot st i (times i)
      let p := Arena.updateRobotsAux times st2 (i + 1) k
      (p.1, Ev.upd i c :: p.2)

/-- All robots of the arena updated sequentially, first to last. -/
noncomputable def Arena.updateRobots (times : ℕ → ℝ) (st : ArenaState) :
    ArenaState × List Ev :=
  Arena.updateRobotsAux times st 0 st.robots.length

/-- One iteration of the `runSync` loop (lines 53-71 of the source):
poll input and break if stopped; draw and count the frame, breaking once
the optional frame ceiling is reached; update every robot sequentially;
recompute the centroid (a ZeroDivisionError on an empty swarm is `none`).
Returns the arena, the frame counter, whether the loop broke, and the
event trace of the tick.  The end-of-tick sleep does not change this state and
is modelled by `syncSleepDuration`. -/
noncomputable def Arena.syncTick (stopSignal : Bool) (times : ℕ → ℝ)
    (stopAfter nFrames : ℕ) (st : ArenaState) :
    Option (ArenaState × ℕ × Bool × List Ev) :=
  let st1 := Arena.handleEvents stopSignal st
  if st1.keepRunning then
    let snap := Arena.snapshot st1
    let n2 := nFrames + 1
    if stopAfter ≠ 0 ∧ stopAfter ≤ n2 then
      some (st1, n2, true, [Ev.poll, Ev.draw snap])
    else
      let p := Arena.updateRobots times st1
      match Arena.refreshCentroid p.1 with
      | none => none
      | some (st3, _) =>
          some (st3, n2, false, Ev.poll :: Ev.draw snap ::
            (p.2 ++ [Ev.recompute]))
  else some (st1, nFrames, true, [Ev.poll])

/-- The whole `runSync` loop, fuel-indexed: `stops t` is the stop signal
pending at tick `t` and `times t` the clock readings of the robot
updates in tick `t`.  Returns the final arena, the frame counter and the concatenated
event trace; `none` when the fuel runs out before the loop breaks (or a
tick raises). -/
noncomputable def Arena.runSyncLoop (stops : ℕ → Bool) (times : ℕ → ℕ → ℝ)
    (stopAfter : ℕ) :
    ℕ → ℕ → ℕ → ArenaState → Option (ArenaState × ℕ × List Ev)
  | 0, _, _, _ => none
  | fuel + 1, t, n, st =>
      match Arena.syncTick (stops t) (times t) stopAfter n st with
      | none => none
      | some (st1, n1, brk, tr) =>
          if brk then some (st1, n1, tr)
          else
            match Arena.runSyncLoop stops times stopAfter fuel (t + 1) n1 st1 with
            | none => none
            | some (st2, n2, tr2) => some (st2, n2, tr ++ tr2)

/-- One iteration of the `runGuiAsync` loop (lines 83-93 of the source):
poll input; if still running, draw and count the frame, clearing
`keepRunning` and breaking once the frame ceiling is reached, otherwise
sleep `drawInterval`; if not running, break.  No robot update and no
centroid recomputation happens here. -/
def Arena.guiTick (stopSignal : Bool) (stopAfter nFrames : ℕ)
    (st : ArenaState) : ArenaState × ℕ × Bool × List Ev :=
  let st1 := Arena.handleEvents stopSignal st
  if st1.keepRunning then
    let snap := Arena.snapshot st1
    let n2 := nFrames + 1
    if stopAfter ≠ 0 ∧ stopAfter ≤ n2 then
      ({ st1 with keepRunning := false }, n2, true, [Ev.poll, Ev.draw snap])
    else (st1, n2, false, [Ev.poll, Ev.draw snap])
  else (st1, nFrames, true, [Ev.poll])

/-- The whole `runGuiAsync` renderer loop, fuel-indexed. -/
def Arena.runGuiLoop (stops : ℕ → Bool) (stopAfter : ℕ) :
    ℕ → ℕ → ℕ → ArenaState → Option (ArenaState × ℕ × List Ev)
  | 0, _, _, _ => none
  | fuel + 1, t, n, st =>
      match Arena.guiTick (stops t) stopAfter n st with
      | (st1, n1, true, tr) => some (st1, n1, tr)
      | (st1, n1, false, tr) =>
          match Arena.runGuiLoop stops stopAfter fuel (t + 1) n1 st1 with
          | none => none
          | some (st2, n2, tr2) => some (st2, n2, tr ++ tr2)

/-- Whether an event is a draw call. -/
def Ev.isDraw : Ev → Bool
  | Ev.draw _ => true
  | _ => false

/-- Number of draw calls in an event trace. -/
def drawCount (tr : List Ev) : ℕ := (tr.filter Ev.isDraw).length

/-- The sleep performed at the end of a `runSync` tick, exactly as the
source computes it: `now` is read once at the start of the tick,
`next := now + drawInterval`, and the tick ends with
`if next > now: time.sleep(next - now)` — against the same start-of-tick
`now`, which is never re-read. -/
noncomputable def syncSleepDuration (now drawInterval : ℝ) : ℝ :=
  let nxt := now + drawInterval
  if nxt > now then nxt - now else 0

/-- Modelled from the spec: the slept duration the specification
describes, `max(0, nextTickDeadline - current time at end of tick)`,
where the work of the tick consumed `workDuration` seconds. -/
noncomputable def specSleepDuration (now workDuration drawInterval : ℝ) : ℝ :=
  max 0 ((now + drawInterval) - (now + workDuration))

/-! ### Facts about the poll, the renderer tick, and the sleep -/

theorem handleEvents_false (st : ArenaState) :
    Arena.handleEvents false st = st := rfl

theorem handleEvents_true (st : ArenaState) :
    Arena.handleEvents true st = { st with keepRunning := false } := rfl

theorem handleEvents_centroid (s : Bool) (st : ArenaState) :
    (Arena.handleEvents s st).centroid = st.centroid := by
  cases s <;> rfl

theorem guiTick_centroid (s : Bool) (a n : ℕ) (st : ArenaState) :
    (Arena.guiTick s a n st).1.centroid = st.centroid := by
  unfold Arena.guiTick
  dsimp only
  split
  · split
    · exact handleEvents_centroid s st
    · exact handleEvents_centroid s st
  · exact handleEvents_centroid s st

theorem guiTick_no_recompute (s : Bool) (a n : ℕ) (st : ArenaState) :
    Ev.recompute ∉ (Arena.guiTick s a n st).2.2.2 := by
  unfold Arena.guiTick
  dsimp only
  split
  · split <;> simp
  · simp

theorem runGuiLoop_centroid (stops : ℕ → Bool) (stopAfter : ℕ) :
    ∀ (fuel t n : ℕ) (st st2 : ArenaState) (n2 : ℕ) (tr : List Ev),
      Arena.runGuiLoop stops stopAfter fuel t n st = some (st2, n2, tr) →
      st2.centroid = st.centroid ∧ Ev.recompute ∉ tr := by
  intro fuel
  induction fuel with
  | zero =>
      intro t n st st2 n2 tr h
      exact absurd h (by simp [Arena.runGuiLoop])
  | succ fuel ih =>
      intro t n st st2 n2 tr h
      unfold Arena.runGuiLoop at h
      rcases hg : Arena.guiTick (stops t) stopAfter n st with ⟨st1, n1, brk, tr1⟩
      rw [hg] at h
      have hc1 : st1.centroid = st.centroid := by
        have := guiTick_centroid (stops t) stopAfter n st
        rw [hg] at this
        exact this
      have hnr1 : Ev.recompute ∉ tr1 := by
        have := guiTick_no_recompute (stops t) stopAfter n st
        rw [hg] at this
        exact this
      cases brk
      · dsimp only at h
        cases hrec : Arena.runGuiLoop stops stopAfter fuel (t + 1) n1 st1 with
        | none =>
            rw [hrec] at h
            exact absurd h (by simp)
        | some p =>
            obtain ⟨st2', n2', tr2⟩ := p
            rw [hrec] at h
            simp only [Option.some.injEq, Prod.mk.injEq] at h
            obtain ⟨h1, _, h3⟩ := h
            have hr := ih (t + 1) n1 st1 st2' n2' tr2 hrec
            subst h1
            constructor
            · rw [hr.1, hc1]
            · rw [← h3]
              intro hmem
              rcases List.mem_append.mp hmem with hm | hm
              · exact hnr1 hm
              · exact hr.2 hm
      · dsimp only at h
        simp only [Option.some.injEq, Prod.mk.injEq] at h
        obtain ⟨h1, _, h3⟩ := h
        subst h1
        rw [← h3]
        exact ⟨hc1, hnr1⟩

/-- Claim C1: contrary to the claim, the async renderer tick never
recomputes the centroid: one `runGuiAsync` iteration leaves the stored
centroid unchanged, the own `update` of a robot leaves it unchanged too,
and
any complete renderer-loop run leaves the centroid at its initial value
and contains no recomputation event in its trace. -/
theorem claim_C1_async_centroid_never_recomputed (stop : Bool)
    (stopAfter n : ℕ) (st : ArenaState) (i : ℕ) (now : ℝ) :
    (Arena.guiTick stop stopAfter n st).1.centroid = st.centroid ∧
    (Arena.updateRobot st i now).centroid = st.centroid ∧
    (∀ (stops : ℕ → Bool) (fuel t m n2 : ℕ) (st2 : ArenaState) (tr : List Ev),
      Arena.runGuiLoop stops stopAfter fuel t m st = some (st2, n2, tr) →
        st2.centroid = st.centroid ∧ Ev.recompute ∉ tr) :=
  ⟨guiTick_centroid stop stopAfter n st,
   updateRobot_centroid st i now,
   fun stops fuel t m n2 st2 tr h =>
     runGuiLoop_centroid stops stopAfter fuel t m st st2 n2 tr h⟩

/-- Witness for C1 at the four-robot demonstration swarm, renderer tick
with no stop signal and no frame ceiling. -/
theorem claim_C1_witness :
    (Arena.guiTick false 0 0 demoSwarm).1.centroid = demoSwarm.centroid ∧
    (Arena.updateRobot demoSwarm 0 0).centroid = demoSwarm.centroid ∧
    (∀ (stops : ℕ → Bool) (fuel t m n2 : ℕ) (st2 : ArenaState) (tr : List Ev),
      Arena.runGuiLoop stops 0 fuel t m demoSwarm = some (st2, n2, tr) →
        st2.centroid = demoSwarm.centroid ∧ Ev.recompute ∉ tr) :=
  claim_C1_async_centroid_never_recomputed false 0 0 demoSwarm 0 0

/-- Claim C3: contrary to the claim, the end-of-tick sleep of `runSync`
is the full `drawInterval` whenever `drawInterval > 0`, independent of
how long the work of the tick took — the deadline is compared against the
start-of-tick clock reading, which is never re-read — while the slept
duration the specification describes is 0 as soon as the work exceeds
`drawInterval`. -/
theorem claim_C3_code_sleeps_full_interval (now work di : ℝ)
    (hdi : 0 < di) :
    syncSleepDuration now di = di ∧
      (di < work → specSleepDuration now work di = 0) := by
  constructor
  · unfold syncSleepDuration
    have h : now + di > now := by linarith
    rw [if_pos h]
    ring
  · intro h
    unfold specSleepDuration
    apply max_eq_left
    linarith

/-- Witness for C3: a tick starting at time 0 with the default draw
interval 1/15 s whose work takes 1 s still sleeps 1/15 s, where the
claimed duration is 0. -/
theorem claim_C3_witness :
    (0 : ℝ) < 1 / 15 ∧
      (syncSleepDuration 0 (1 / 15) = 1 / 15 ∧
        ((1 : ℝ) / 15 < 1 → specSleepDuration 0 1 (1 / 15) = 0)) :=
  ⟨by norm_num, claim_C3_code_sleeps_full_interval 0 1 (1 / 15) (by norm_num)⟩

/-! ### The sequential update pass of the synchronous tick -/

theorem updateRobotsAux_keepRunning (times : ℕ → ℝ) :
    ∀ (k i : ℕ) (st : ArenaState),
      (Arena.updateRobotsAux times st i k).1.keepRunning = st.keepRunning := by
  intro k
  induction k with
  | zero => intro i st; rfl
  | succ k ih =>
      intro i st
      unfold Arena.updateRobotsAux
      dsimp only
      rw [ih, updateRobot_keepRunning]

theorem updateRobotsAux_length (times : ℕ → ℝ) :
    ∀ (k i : ℕ) (st : ArenaState),
      (Arena.updateRobotsAux times st i k).1.robots.length =
        st.robots.length := by
  intro k
  induction k with
  | zero => intro i st; rfl
  | succ k ih =>
      intro i st
      unfold Arena.updateRobotsAux
      dsimp only
      rw [ih, updateRobot_length]

/-- Every `upd` event of the sequential pass starting from arena `st`
records the same centroid: the one stored in `st` — robot updates never
write the centroid, so every `findCentroid` read of a robot returns the value
from before the pass. -/
theorem updateRobotsAux_trace (times : ℕ → ℝ) :
    ∀ (k i : ℕ) (st : ArenaState),
      (Arena.updateRobotsAux times st i k).2 =
        (List.range' i k).map fun j => Ev.upd j st.centroid := by
  intro k
  induction k with
  | zero => intro i st; rfl
  | succ k ih =>
      intro i st
      unfold Arena.updateRobotsAux
      dsimp only
      rw [ih, updateRobot_centroid, List.range'_succ, List.map_cons]
      rfl

theorem updateRobots_keepRunning (times : ℕ → ℝ) (st : ArenaState) :
    (Arena.updateRobots times st).1.keepRunning = st.keepRunning :=
  updateRobotsAux_keepRunning times st.robots.length 0 st

theorem updateRobots_length (times : ℕ → ℝ) (st : ArenaState) :
    (Arena.updateRobots times st).1.robots.length = st.robots.length :=
  updateRobotsAux_length times st.robots.length 0 st

theorem updateRobots_trace (times : ℕ → ℝ) (st : ArenaState) :
    (Arena.updateRobots times st).2 =
      (List.range st.robots.length).map fun j => Ev.upd j st.centroid := by
  unfold Arena.updateRobots
  rw [updateRobotsAux_trace, List.range_eq_range']

/-! ### Equations for one synchronous tick -/

theorem syncTick_not_running (stop : Bool) (times : ℕ → ℝ) (a n : ℕ)
    (st : ArenaState)
    (h : (Arena.handleEvents stop st).keepRunning = false) :
    Arena.syncTick stop times a n st =
      some (Arena.handleEvents stop st, n, true, [Ev.poll]) := by
  unfold Arena.syncTick
  dsimp only
  rw [h]
  simp

theorem syncTick_ceiling (times : ℕ → ℝ) (a n : ℕ) (st : ArenaState)
    (hkr : st.keepRunning = true) (hc : a ≠ 0 ∧ a ≤ n + 1) :
    Arena.syncTick false times a n st =
      some (st, n + 1, true, [Ev.poll, Ev.draw (Arena.snapshot st)]) := by
  unfold Arena.syncTick
  dsimp only
  rw [handleEvents_false, hkr]
  simp [hc]

theorem syncTick_continue (times : ℕ → ℝ) (a n : ℕ) (st : ArenaState)
    (hkr : st.keepRunning = true) (hrob : st.robots ≠ [])
    (hc : ¬(a ≠ 0 ∧ a ≤ n + 1)) :
    Arena.syncTick false times a n st =
      some ({ (Arena.updateRobots times st).1 with
                centroid := meanPos (Arena.updateRobots times st).1.robots },
            n + 1, false,
            Ev.poll :: Ev.draw (Arena.snapshot st) ::
              ((Arena.updateRobots times st).2 ++ [Ev.recompute])) := by
  have hrob2 : (Arena.updateRobots times st).1.robots ≠ [] := by
    intro hnil
    apply hrob
    apply List.length_eq_zero.mp
    rw [← updateRobots_length times st, hnil]
    rfl
  unfold Arena.syncTick
  dsimp only
  rw [handleEvents_false, hkr]
  simp only [if_true]
  rw [if_neg hc, refreshCentroid_eq _ hrob2]

theorem syncTick_empty (times : ℕ → ℝ) (a n : ℕ) (st : ArenaState)
    (hkr : st.keepRunning = true) (hrob : st.robots = [])
    (hc : ¬(a ≠ 0 ∧ a ≤ n + 1)) :
    Arena.syncTick false times a n st = none := by
  have hrc : Arena.refreshCentroid (Arena.updateRobots times st).1 = none := by
    unfold Arena.refreshCentroid
    have hlen : (Arena.updateRobots times st).1.robots.length = 0 := by
      rw [updateRobots_length, hrob]
      rfl
    simp [hlen]
  unfold Arena.syncTick
  dsimp only
  rw [handleEvents_false, hkr]
  simp only [if_true]
  rw [if_neg hc, hrc]

/-- Claim C8: within one synchronous tick, the input poll is the first
event; a present stop signal makes the tick break with no draw (the
trace is just the poll); otherwise the draw comes right after the poll
and shows the tick-start positions, and then either the frame ceiling
breaks the tick, or all robot updates follow strictly sequentially in
robot order, each reading the centroid stored at the start of the tick,
with the centroid recomputation strictly after all of them. -/
theorem claim_C8_sync_tick_ordering (stop : Bool) (times : ℕ → ℝ)
    (stopAfter n : ℕ) (st st1 : ArenaState) (n1 : ℕ) (brk : Bool)
    (tr : List Ev)
    (h : Arena.syncTick stop times stopAfter n st = some (st1, n1, brk, tr)) :
    tr.head? = some Ev.poll ∧
    (stop = true → brk = true ∧ tr = [Ev.poll]) ∧
    (stop = false → st.keepRunning = true →
      (brk = true ∧ tr = [Ev.poll, Ev.draw (Arena.snapshot st)] ∧
        stopAfter ≠ 0 ∧ stopAfter ≤ n + 1) ∨
      (brk = false ∧
        tr = Ev.poll :: Ev.draw (Arena.snapshot st) ::
          (((List.range st.robots.length).map fun j =>
              Ev.upd j st.centroid) ++ [Ev.recompute]))) := by
  cases stop
  · cases hkr : st.keepRunning
    · rw [syncTick_not_running false times stopAfter n st
        (by rw [handleEvents_false]; exact hkr)] at h
      simp only [Option.some.injEq, Prod.mk.injEq] at h
      obtain ⟨_, _, h3, h4⟩ := h
      subst h3; subst h4
      refine ⟨rfl, ?_, ?_⟩
      · intro hco; exact absurd hco (by simp)
      · intro _ hkr2
        exact absurd hkr2 (by simp)
    · by_cases hc : stopAfter ≠ 0 ∧ stopAfter ≤ n + 1
      · rw [syncTick_ceiling times stopAfter n st hkr hc] at h
        simp only [Option.some.injEq, Prod.mk.injEq] at h
        obtain ⟨_, _, h3, h4⟩ := h
        subst h3; subst h4
        refine ⟨rfl, ?_, ?_⟩
        · intro hco; exact absurd hco (by simp)
        · intro _ _
          exact Or.inl ⟨rfl, rfl, hc⟩
      · by_cases hrob : st.robots = []
        · rw [syncTick_empty times stopAfter n st hkr hrob hc] at h
          exact absurd h (by simp)
        · rw [syncTick_continue times stopAfter n st hkr hrob hc] at h
          simp only [Option.some.injEq, Prod.mk.injEq] at h
          obtain ⟨_, _, h3, h4⟩ := h
          subst h3; subst h4
          refine ⟨rfl, ?_, ?_⟩
          · intro hco; exact absurd hco (by simp)
          · intro _ _
            refine Or.inr ⟨rfl, ?_⟩
            rw [updateRobots_trace]
  · rw [syncTick_not_running true times stopAfter n st
      (by rw [handleEvents_true])] at h
    simp only [Option.some.injEq, Prod.mk.injEq] at h
    obtain ⟨_, _, h3, h4⟩ := h
    subst h3; subst h4
    refine ⟨rfl, ?_, ?_⟩
    · intro _; exact ⟨rfl, rfl⟩
    · intro hco _; exact absurd hco (by simp)

/-- Witness for C8: the four-robot demonstration swarm, no stop signal,
frame ceiling 1, frame counter 0 — the tick polls, draws the tick-start
snapshot and breaks at the ceiling. -/
theorem claim_C8_witness :
    ([Ev.poll, Ev.draw (Arena.snapshot demoSwarm)] : List Ev).head? =
        some Ev.poll ∧
    (false = true → true = true ∧
      ([Ev.poll, Ev.draw (Arena.snapshot demoSwarm)] : List Ev) =
        [Ev.poll]) ∧
    (false = false → demoSwarm.keepRunning = true →
      (true = true ∧
        ([Ev.poll, Ev.draw (Arena.snapshot demoSwarm)] : List Ev) =
          [Ev.poll, Ev.draw (Arena.snapshot demoSwarm)] ∧
        (1 : ℕ) ≠ 0 ∧ 1 ≤ 0 + 1) ∨
      (true = false ∧
        ([Ev.poll, Ev.draw (Arena.snapshot demoSwarm)] : List Ev) =
          Ev.poll :: Ev.draw (Arena.snapshot demoSwarm) ::
            (((List.range demoSwarm.robots.length).map fun j =>
                Ev.upd j demoSwarm.centroid) ++ [Ev.recompute]))) :=
  claim_C8_sync_tick_ordering false (fun _ => 0) 1 0 demoSwarm demoSwarm 1
    true [Ev.poll, Ev.draw (Arena.snapshot demoSwarm)] rfl

/-! ### Exact frame counts under a frame ceiling -/

theorem guiTick_ceiling (a n : ℕ) (st : ArenaState)
    (hkr : st.keepRunning = true) (hc : a ≠ 0 ∧ a ≤ n + 1) :
    Arena.guiTick false a n st =
      ({ st with keepRunning := false }, n + 1, true,
        [Ev.poll, Ev.draw (Arena.snapshot st)]) := by
  unfold Arena.guiTick
  dsimp only
  rw [handleEvents_false, hkr]
  simp [hc]

theorem guiTick_continue (a n : ℕ) (st : ArenaState)
    (hkr : st.keepRunning = true) (hc : ¬(a ≠ 0 ∧ a ≤ n + 1)) :
    Arena.guiTick false a n st =
      (st, n + 1, false, [Ev.poll, Ev.draw (Arena.snapshot st)]) := by
  unfold Arena.guiTick
  dsimp only
  rw [handleEvents_false, hkr]
  simp only [if_true]
  rw [if_neg hc]

theorem drawCount_poll_draw (s : List ((ℝ × ℝ) × (ℕ × ℕ × ℕ))) :
    drawCount [Ev.poll, Ev.draw s] = 1 := rfl

theorem drawCount_append (a b : List Ev) :
    drawCount (a ++ b) = drawCount a + drawCount b := by
  unfold drawCount
  rw [List.filter_append, List.length_append]

theorem runGuiLoop_go (k : ℕ) (hk1 : 1 ≤ k) :
    ∀ (fuel t n : ℕ) (st : ArenaState), st.keepRunning = true →
      n < k → k - n ≤ fuel →
      ∃ st2 tr,
        Arena.runGuiLoop (fun _ => false) k fuel t n st = some (st2, k, tr) ∧
          drawCount tr = k - n := by
  intro fuel
  induction fuel with
  | zero =>
      intro t n st _ hn hf
      omega
  | succ fuel ih =>
      intro t n st hkr hn hf
      by_cases hc : k ≤ n + 1
      · have hkn : k = n + 1 := by omega
        have hcc : k ≠ 0 ∧ k ≤ n + 1 := ⟨by omega, hc⟩
        refine ⟨{ st with keepRunning := false },
          [Ev.poll, Ev.draw (Arena.snapshot st)], ?_, ?_⟩
        · unfold Arena.runGuiLoop
          rw [guiTick_ceiling k n st hkr hcc]
          dsimp only
          rw [← hkn]
        · rw [drawCount_poll_draw]
          omega
      · have hcc : ¬(k ≠ 0 ∧ k ≤ n + 1) := fun hx => hc hx.2
        obtain ⟨st2, tr2, hrec, hcount⟩ :=
          ih (t + 1) (n + 1) st hkr (by omega) (by omega)
        refine ⟨st2, [Ev.poll, Ev.draw (Arena.snapshot st)] ++ tr2, ?_, ?_⟩
        · unfold Arena.runGuiLoop
          rw [guiTick_continue k n st hkr hcc]
          dsimp only
          rw [hrec]
        · rw [drawCount_append, drawCount_poll_draw]
          omega

theorem runSyncLoop_go (times : ℕ → ℕ → ℝ) (k : ℕ) (hk1 : 1 ≤ k) :
    ∀ (fuel t n : ℕ) (st : ArenaState), st.keepRunning = true →
      st.robots ≠ [] → n < k → k - n ≤ fuel →
      ∃ st2 tr,
        Arena.runSyncLoop (fun _ => false) times k fuel t n st =
            some (st2, k, tr) ∧
          drawCount tr = k - n := by
  intro fuel
  induction fuel with
  | zero =>
      intro t n st _ _ hn hf
      omega
  | succ fuel ih =>
      intro t n st hkr hrob hn hf
      by_cases hc : k ≤ n + 1
      · have hkn : k = n + 1 := by omega
        have hcc : k ≠ 0 ∧ k ≤ n + 1 := ⟨by omega, hc⟩
        refine ⟨st, [Ev.poll, Ev.draw (Arena.snapshot st)], ?_, ?_⟩
        · unfold Arena.runSyncLoop
          rw [syncTick_ceiling (times t) k n st hkr hcc]
          dsimp only
          rw [← hkn]
          simp
        · rw [drawCount_poll_draw]
          omega
      · have hcc : ¬(k ≠ 0 ∧ k ≤ n + 1) := fun hx => hc hx.2
        have hkr2 : ({ (Arena.updateRobots (times t) st).1 with
            centroid := meanPos (Arena.updateRobots (times t) st).1.robots }
              : ArenaState).keepRunning = true := by
          show (Arena.updateRobots (times t) st).1.keepRunning = true
          rw [updateRobots_keepRunning]
          exact hkr
        have hrob2 : ({ (Arena.updateRobots (times t) st).1 with
            centroid := meanPos (Arena.updateRobots (times t) st).1.robots }
              : ArenaState).robots ≠ [] := by
          show (Arena.updateRobots (times t) st).1.robots ≠ []
          intro hnil
          apply hrob
          apply List.length_eq_zero.mp
          rw [← updateRobots_length (times t) st, hnil]
          rfl
        obtain ⟨st2, tr2, hrec, hcount⟩ :=
          ih (t + 1) (n + 1) _ hkr2 hrob2 (by omega) (by omega)
        refine ⟨st2,
          (Ev.poll :: Ev.draw (Arena.snapshot st) ::
            ((Arena.updateRobots (times t) st).2 ++ [Ev.recompute])) ++ tr2,
          ?_, ?_⟩
        · unfold Arena.runSyncLoop
          rw [syncTick_continue (times t) k n st hkr hrob hcc]
          dsimp only
          rw [hrec]
          simp
        · rw [drawCount_append]
          have h1 : drawCount (Ev.poll :: Ev.draw (Arena.snapshot st) ::
              ((Arena.updateRobots (times t) st).2 ++ [Ev.recompute])) = 1 := by
            unfold drawCount
            simp only [List.filter_cons, List.filter_append]
            rw [updateRobots_trace]
            simp [Ev.isDraw, List.filter_map]
          rw [h1]
          omega

/-- Claim C7: with no external stop signal and frame ceiling `k ≥ 1`,
both the synchronous loop and the async renderer loop terminate with
frame counter exactly `k` and exactly `k` draw calls in their traces
(given enough fuel; the swarm nonempty so the synchronous-tick centroid
recomputation cannot raise). -/
theorem claim_C7_exact_frames (k fuel : ℕ) (times : ℕ → ℕ → ℝ)
    (st : ArenaState) (hk : 1 ≤ k) (hf : k ≤ fuel)
    (hkr : st.keepRunning = true) (hrob : st.robots ≠ []) :
    (∃ st1 tr,
      Arena.runSyncLoop (fun _ => false) times k fuel 0 0 st =
          some (st1, k, tr) ∧ drawCount tr = k) ∧
    (∃ st1 tr,
      Arena.runGuiLoop (fun _ => false) k fuel 0 0 st =
          some (st1, k, tr) ∧ drawCount tr = k) := by
  constructor
  · obtain ⟨st2, tr, h1, h2⟩ :=
      runSyncLoop_go times k hk fuel 0 0 st hkr hrob (by omega) (by omega)
    exact ⟨st2, tr, h1, by omega⟩
  · obtain ⟨st2, tr, h1, h2⟩ :=
      runGuiLoop_go k hk fuel 0 0 st hkr (by omega) (by omega)
    exact ⟨st2, tr, h1, by omega⟩

/-- Witness for C7 at the four-robot demonstration swarm with frame
ceiling 1 and fuel 1. -/
theorem claim_C7_witness :
    (∃ st1 tr,
      Arena.runSyncLoop (fun _ => false) (fun _ _ => 0) 1 1 0 0 demoSwarm =
          some (st1, 1, tr) ∧ drawCount tr = 1) ∧
    (∃ st1 tr,
      Arena.runGuiLoop (fun _ => false) 1 1 0 0 demoSwarm =
          some (st1, 1, tr) ∧ drawCount tr = 1) :=
  claim_C7_exact_frames 1 1 (fun _ _ => 0) demoSwarm (by omega) (by omega)
    rfl (by simp [demoSwarm])

end Swarm
